import Mathlib

/-!
Verification development for the shadow-environment engine
(`amplifier_bundle_shadow` plus the `tool-shadow` module).

The Python sources are shallowly embedded: strings that are computed on
(porcelain output, URLs, container paths) are represented as `List Char`
(abbreviated `Str`); subprocess results carry explicit exit codes; fallible
Python code returns `Except`.  Each definition mirrors one function of the
source; the theorems at the end settle the specification claims.
-/

/-- Character lists stand in for Python strings wherever the code computes on
their contents (`String`'s substring-based operations do not reduce). -/
abbrev Str := List Char

/-- Python's `str.strip()`: remove leading and trailing whitespace. -/
def pyStrip (s : Str) : Str :=
  ((s.dropWhile Char.isWhitespace).reverse.dropWhile Char.isWhitespace).reverse

/- ===== snapshot.py : SnapshotManager ===== -/

/-- A git commit: identifier, parent identifiers, author line and message.
Commit identifiers are abstracted to naturals. -/
structure Commit where
  sha : Nat
  parents : List Nat
  author : String
  message : String
deriving DecidableEq

/-- The git-visible state of a local repository: its commit store, the commit
`HEAD` resolves to, and the `git status --porcelain` output describing the
working tree. -/
structure RepoState where
  commits : List Commit
  head : Nat
  porcelain : Str
deriving DecidableEq

/-- `SnapshotManager.has_uncommitted_changes`: `bool(stdout.strip())` on the
output of `git status --porcelain`. -/
def has_uncommitted_changes (r : RepoState) : Bool :=
  !(pyStrip r.porcelain).isEmpty

/-- `SnapshotManager.get_head_sha`: `git rev-parse HEAD`. -/
def get_head_sha (r : RepoState) : Nat :=
  r.head

/-- A commit id not yet used in the repository (git guarantees the snapshot
commit's hash is new; modelled as one past the maximum). -/
def freshSha (r : RepoState) : Nat :=
  (r.commits.map Commit.sha).foldr max 0 + 1

/-- `git clone --quiet <repo> <tmp>`: history and HEAD are preserved, the
clone's working tree is the checked-out committed state (clean). -/
def gitClone (r : RepoState) : RepoState :=
  { r with porcelain := [] }

/-- `git commit --allow-empty -m <message> --author <author>` after
`git add -A`: a commit on top of HEAD is created when something is staged or
when `--allow-empty` is passed; otherwise git refuses and the state is
unchanged (`_run_git` swallows the failure). -/
def gitCommit (r : RepoState) (author message : String)
    (allowEmpty staged : Bool) : RepoState :=
  if staged || allowEmpty then
    { r with
      commits := ⟨freshSha r, [r.head], author, message⟩ :: r.commits
      head := freshSha r }
  else r

/-- Fixed author of `SnapshotManager._create_snapshot_with_changes`. -/
def shadowAuthor : String := "Shadow <shadow@localhost>"

/-- Fixed commit message of `SnapshotManager._create_snapshot_with_changes`. -/
def shadowMessage : String := "Shadow snapshot: uncommitted changes"

/-- Result of `SnapshotManager.create_snapshot`.  `bundleRepo` is the
repository state the bundle is emitted from (the scratch clone for a dirty
tree, the original repository for a clean one). -/
structure SnapshotResultM where
  has_uncommitted : Bool
  commit_sha : Nat
  bundleRepo : RepoState
deriving DecidableEq

/-- `SnapshotManager._create_snapshot_with_changes`: clone to a scratch
directory, copy the working tree over the clone, `git add -A`, then commit
with `--allow-empty`, the fixed author and the fixed message; return the new
HEAD.  `staged` records whether the copied tree left anything staged after
`add -A` (with `--allow-empty` the commit is created either way). -/
def create_snapshot_with_changes (r : RepoState) (staged : Bool) :
    RepoState × Nat :=
  let tmp := gitClone r
  let tmp2 := gitCommit tmp shadowAuthor shadowMessage true staged
  (tmp2, get_head_sha tmp2)

/-- `SnapshotManager.create_snapshot` (git-level data flow): check
`has_uncommitted_changes`; if dirty, bundle from the scratch clone carrying
the snapshot commit, else bundle the repository directly and report its
HEAD. -/
def create_snapshot (r : RepoState) (staged : Bool) : SnapshotResultM :=
  if has_uncommitted_changes r then
    let p := create_snapshot_with_changes r staged
    ⟨true, p.2, p.1⟩
  else
    ⟨false, get_head_sha r, r⟩

/- ===== snapshot.py : _run_git and bundle failure handling ===== -/

/-- Errors of the Python snapshot layer: `SnapshotError` (the spec's
`SnapshotFailed`) and `FileNotFoundError` (from `Path.stat`). -/
inductive PyErr where
  | snapshotFailed (msg : String)
  | fileNotFound
deriving DecidableEq

/-- Outcome of one git subprocess: exit code, stdout, stderr. -/
structure GitRes where
  exit : Int
  stdout : Str
  stderr : Str
deriving DecidableEq

/-- `SnapshotManager._run_git`: runs git and returns `(stdout, stderr)`.
The non-zero-exit branch of the source (`if proc.returncode != 0 and
"bundle" not in args:`) has a `pass` body, so no error is ever raised and
the exit status is discarded. -/
def run_git (args : List String) (res : GitRes) : Except PyErr (Str × Str) :=
  if res.exit ≠ 0 ∧ ¬ args.contains "bundle" then
    Except.ok (res.stdout, res.stderr)
  else
    Except.ok (res.stdout, res.stderr)

/-- The `git bundle create` invocation of
`SnapshotManager._create_simple_bundle`, routed through `_run_git`. -/
def create_simple_bundle (refs : List String) (res : GitRes) :
    Except PyErr Unit :=
  (run_git (["bundle", "create", "out.bundle"] ++ refs) res).map fun _ => ()

/-- End of `create_snapshot`: `bundle_path.stat().st_size`.  When the bundle
file is absent, `stat` raises `FileNotFoundError`. -/
def snapshot_stat (bundleSize : Option Nat) : Except PyErr Nat :=
  match bundleSize with
  | some n => Except.ok n
  | none => Except.error PyErr.fileNotFound

/- ===== manager.py : _configure_git_rewriting URL patterns ===== -/

/-- The bare URL shape `https://github.com/{org}/{name}` — the single
whitelisted pattern without a terminating boundary marker (kept because `uv`
strips `@ref` before calling git; the source comment documents the prefix
collision risk this creates). -/
def bare_pattern (org name : Str) : Str :=
  "https://github.com/".data ++ org ++ "/".data ++ name

/-- The `insteadOf` patterns that `ShadowManager._configure_git_rewriting`
installs for one repo spec, in source order. -/
def rewrite_patterns (org name : Str) : List Str :=
  [ "https://github.com/".data ++ org ++ "/".data ++ name
  , "https://github.com/".data ++ org ++ "/".data ++ name ++ ".git".data
  , "https://github.com/".data ++ org ++ "/".data ++ name ++ ".git/".data
  , "https://github.com/".data ++ org ++ "/".data ++ name ++ "/".data
  , "https://github.com/".data ++ org ++ "/".data ++ name ++ "@".data
  , "git@github.com:".data ++ org ++ "/".data ++ name ++ ".git".data
  , "git@github.com:".data ++ org ++ "/".data ++ name ++ "/".data
  , "git@github.com:".data ++ org ++ "/".data ++ name ++ "@".data
  , "ssh://git@github.com/".data ++ org ++ "/".data ++ name ++ ".git".data
  , "ssh://git@github.com/".data ++ org ++ "/".data ++ name ++ "/".data
  , "ssh://git@github.com/".data ++ org ++ "/".data ++ name ++ "@".data
  , "git+https://github.com/".data ++ org ++ "/".data ++ name ++ ".git".data
  , "git+https://github.com/".data ++ org ++ "/".data ++ name ++ "@".data
  , "git+ssh://git@github.com/".data ++ org ++ "/".data ++ name ++ ".git".data
  , "git+ssh://git@github.com/".data ++ org ++ "/".data ++ name ++ "@".data
  ]

/-- The non-bare patterns of `rewrite_patterns` (all but the first). -/
def rewrite_patterns_rest (org name : Str) : List Str :=
  (rewrite_patterns org name).tail

/- ===== environment.py : ShadowEnvironment.extract / inject ===== -/

/-- Where a container path is mapped on the host. -/
inductive MappedPath where
  | workspace (rel : Str)
  | home (rel : Str)
deriving DecidableEq

/-- The path-mapping logic of `ShadowEnvironment.extract`: paths starting
with `/workspace` map into the workspace directory, paths starting with
`/home/shadow` map into the home directory, anything else raises
`ValueError("Cannot extract from path: ...")`.  The mapped relative part is
the Python slice `sandbox_path[len("/workspace/"):]`. -/
def map_extract_path (sandbox_path : Str) : Except String MappedPath :=
  if "/workspace".data.isPrefixOf sandbox_path then
    Except.ok (MappedPath.workspace (sandbox_path.drop "/workspace/".data.length))
  else if "/home/shadow".data.isPrefixOf sandbox_path then
    Except.ok (MappedPath.home (sandbox_path.drop "/home/shadow/".data.length))
  else
    Except.error "Cannot extract from path"

/-- The path-mapping logic of `ShadowEnvironment.inject` (same branches as
`extract`, with the `ValueError("Cannot inject to path: ...")` message). -/
def map_inject_path (sandbox_path : Str) : Except String MappedPath :=
  if "/workspace".data.isPrefixOf sandbox_path then
    Except.ok (MappedPath.workspace (sandbox_path.drop "/workspace/".data.length))
  else if "/home/shadow".data.isPrefixOf sandbox_path then
    Except.ok (MappedPath.home (sandbox_path.drop "/home/shadow/".data.length))
  else
    Except.error "Cannot inject to path"

/- ===== gitea.py : GiteaClient.push_bundle ===== -/

/-- The references a snapshot bundle carries: `_create_simple_bundle`
enumerates `git show-ref --heads --tags` (local branches and tags) plus every
`refs/remotes/*` line of `git show-ref`.  `defaultBranch` is the branch the
source repository's HEAD was on (the bundle's HEAD). -/
structure BundleRefsM where
  heads : List (String × Nat)
  tags : List (String × Nat)
  remotes : List (String × Nat)
  defaultBranch : String
deriving DecidableEq

/-- All references contained in the bundle. -/
def bundle_refs (b : BundleRefsM) : List (String × Nat) :=
  b.heads ++ b.tags ++ b.remotes

/-- A scratch clone as seen by `push_bundle` (only the refs that matter to
`git push --all`). -/
structure ClonedRepoM where
  heads : List (String × Nat)
  tags : List (String × Nat)
deriving DecidableEq

/-- The forge repository's references after a push. -/
structure ForgeRepoM where
  heads : List (String × Nat)
  tags : List (String × Nat)
deriving DecidableEq

/-- Modelled git behavior of `git clone <bundle> <dir>` (documented clone
semantics): exactly one local branch is created — the bundle's HEAD branch;
the bundle's other heads become remote-tracking refs only; tags are copied;
the bundle's own `refs/remotes/*` are not fetched (no refspec maps them). -/
def clone_bundle (b : BundleRefsM) : ClonedRepoM :=
  { heads := b.heads.filter (fun r => r.1 == b.defaultBranch)
  , tags := b.tags }

/-- Modelled git behavior of `git push -u origin --all --force` (documented
push semantics): `--all` pushes `refs/heads/*` only; tags and remote-tracking
refs are not transferred. -/
def push_all_force (c : ClonedRepoM) : ForgeRepoM :=
  { heads := c.heads, tags := [] }

/-- `GiteaClient.push_bundle`: clone the bundle to a scratch directory, point
origin at the authenticated forge URL, run `git push -u origin --all
--force`. -/
def push_bundle (b : BundleRefsM) : ForgeRepoM :=
  push_all_force (clone_bundle b)

/- ===== tool-shadow __init__.py : ShadowTool._exec_batch ===== -/

/-- Result of one in-container command (`ExecResult`). -/
structure ExecResultM where
  exit_code : Int
  stdout : String
  stderr : String
deriving DecidableEq

/-- One entry of `_exec_batch`'s `steps` list. -/
structure BatchStep where
  command : String
  exit_code : Int
  stdout : String
  stderr : String
deriving DecidableEq

/-- The step record `_exec_batch` appends for an executed command. -/
def mkStep (c : String) (r : ExecResultM) : BatchStep :=
  ⟨c, r.exit_code, r.stdout, r.stderr⟩

/-- The output object of `_exec_batch`. -/
structure BatchOutput where
  steps : List BatchStep
  success : Bool
  failed_at : Option Nat
deriving DecidableEq

/-- The command loop of `ShadowTool._exec_batch`.  `ex` gives the result of
executing a command in the container; `idx` is the enumeration index.  On a
non-zero exit the overall success flag drops to `false`; with `fail_fast`
the loop records the index and stops. -/
def exec_batch_loop (ex : String → ExecResultM) (fail_fast : Bool) :
    List String → Nat → List BatchStep × Bool × Option Nat
  | [], _ => ([], true, none)
  | c :: rest, idx =>
    let r := ex c
    let step := mkStep c r
    if r.exit_code ≠ 0 then
      if fail_fast then ([step], false, some idx)
      else
        let t := exec_batch_loop ex fail_fast rest (idx + 1)
        (step :: t.1, false, t.2.2)
    else
      let t := exec_batch_loop ex fail_fast rest (idx + 1)
      (step :: t.1, t.2.1, t.2.2)

/-- `ShadowTool._exec_batch` (after the shadow-id / command validation):
executes the commands sequentially and returns steps, overall success and
`failed_at`. -/
def exec_batch (ex : String → ExecResultM) (commands : List String)
    (fail_fast : Bool) : BatchOutput :=
  let t := exec_batch_loop ex fail_fast commands 0
  ⟨t.1, t.2.1, t.2.2⟩

/-- Index of the first command whose execution exits non-zero. -/
def first_fail_idx (ex : String → ExecResultM) : List String → Option Nat
  | [] => none
  | c :: rest =>
    if (ex c).exit_code ≠ 0 then some 0
    else (first_fail_idx ex rest).map (· + 1)

/- ===== manager.py metadata + tool-shadow sync-source ===== -/

/-- A JSON-like value, the content written to `metadata.json`. -/
inductive JVal where
  | str (s : String)
  | arr (elems : List JVal)
  | obj (fields : List (String × JVal))

/-- A repo spec as `_write_metadata` consumes it. -/
structure RepoSpecMeta where
  org : String
  name : String
  local_path : Option String
  snapshot_commit : Option String

/-- `RepoSpec.full_name`. -/
def full_name (r : RepoSpecMeta) : String :=
  r.org ++ "/" ++ r.name

/-- One entry of the `local_sources` list of `_write_metadata`: always the
repo name, plus `local_path` and `snapshot_commit` when set. -/
def source_info (r : RepoSpecMeta) : List (String × JVal) :=
  [("repo", JVal.str (full_name r))]
    ++ (match r.local_path with
        | some p => [("local_path", JVal.str p)]
        | none => [])
    ++ (match r.snapshot_commit with
        | some sc => [("snapshot_commit", JVal.str sc)]
        | none => [])

/-- `ShadowManager._write_metadata`: the JSON object written to
`metadata.json`.  `image` and `env_vars` are guarded by Python truthiness
(`if image:` / `if env_vars:`), and only the env-var NAMES
(`list(env_vars.keys())`) are serialized.  `created_at` is the
`datetime.now().isoformat()` value. -/
def write_metadata (shadow_id : String) (repos : List RepoSpecMeta)
    (image : Option String) (env_vars : Option (List (String × String)))
    (created_at : String) : JVal :=
  JVal.obj (
    [("shadow_id", JVal.str shadow_id),
     ("container_name", JVal.str ("shadow-" ++ shadow_id)),
     ("local_sources", JVal.arr (repos.map fun r => JVal.obj (source_info r))),
     ("created_at", JVal.str created_at)]
    ++ (match image with
        | some i => if i = "" then [] else [("image", JVal.str i)]
        | none => [])
    ++ (match env_vars with
        | some l => if l = [] then [] else
            [("env_vars_passed", JVal.arr (l.map fun kv => JVal.str kv.1))]
        | none => []))

/-- The fields of a metadata object. -/
def metadata_fields : JVal → List (String × JVal)
  | JVal.obj l => l
  | _ => []

/-- The methods defined on `ShadowManager` in manager.py. -/
def shadow_manager_methods : List String :=
  ["__init__", "create", "get", "add_source", "list_environments", "destroy",
   "destroy_all", "_configure_git_rewriting", "_verify_git_rewriting",
   "_write_metadata", "_load_from_disk"]

/-- Outcome of a tool operation (`ToolResult`, reduced to the success flag
and error message relevant here). -/
structure ToolResultM where
  success : Bool
  error : Option String
deriving DecidableEq

/-- `ShadowTool._sync_source` wrapped by `ShadowTool.execute`'s
`try/except`: validate `shadow_id` and `local_sources` (Python truthiness),
then call `self.manager.sync_source(...)`.  `ShadowManager` defines no
`sync_source` method (see `shadow_manager_methods`), so the attribute access
raises `AttributeError`, which `execute` converts into a failure result. -/
def tool_sync_source (shadow_id : Option String)
    (local_sources : Option (List String)) : ToolResultM :=
  if shadow_id = none ∨ shadow_id = some "" then
    ⟨false, some "shadow_id is required"⟩
  else if local_sources = none ∨ local_sources = some [] then
    ⟨false, some "local_sources parameter is required"⟩
  else if shadow_manager_methods.contains "sync_source" then
    ⟨true, none⟩
  else
    ⟨false, some "AttributeError: ShadowManager object has no attribute sync_source"⟩

/-- A concrete executor used by witnesses: the command `false` exits 1,
everything else exits 0. -/
def exec_probe : String → ExecResultM := fun c =>
  if c = "false" then ⟨1, "", ""⟩ else ⟨0, "out", ""⟩

/-- A concrete bundle: two branches (HEAD on `main`), one tag, one
remote-tracking ref. -/
def tagged_bundle : BundleRefsM :=
  ⟨[("main", 1), ("dev", 2)], [("v1", 3)], [("origin/main", 4)], "main"⟩

/- ===== manager.py : shadow id and container name derivation ===== -/

/-- `ShadowManager.create` lines 84-85: `shadow_id = name or
f"shadow-{uuid.uuid4().hex[:8]}"` (Python `or`: `None` and `""` are falsy)
and `container_name = f"shadow-{shadow_id}"`.  `hex8` stands for the eight
random hex characters. -/
def create_ids (name : Option String) (hex8 : String) : String × String :=
  let shadow_id :=
    match name with
    | some n => if n = "" then "shadow-" ++ hex8 else n
    | none => "shadow-" ++ hex8
  (shadow_id, "shadow-" ++ shadow_id)

/-- `ShadowManager.destroy`: `container_name = f"shadow-{shadow_id}"`. -/
def destroy_container_name (shadow_id : String) : String :=
  "shadow-" ++ shadow_id

/-- `ShadowManager._load_from_disk`: `metadata.get("container_name",
f"shadow-{shadow_id}")`. -/
def load_container_name (metadata_container : Option String)
    (shadow_id : String) : String :=
  metadata_container.getD ("shadow-" ++ shadow_id)

/- ===== theorems: helper lemmas ===== -/

/-- A list is never equal to itself extended by a non-empty suffix. -/
theorem ne_append_right (l s : Str) (h : s ≠ []) : l ≠ l ++ s := by
  intro he
  exact h (List.append_right_eq_self.mp he.symm)

/-- Lists with different heads are different. -/
theorem cons_ne_cons {c d : Char} (hcd : c ≠ d) (p q : Str) :
    (c :: p : Str) ≠ d :: q := by
  intro h
  injection h with h1 _
  exact hcd h1

/-- A list headed by `c` is no prefix of a list headed by `d ≠ c`. -/
theorem not_prefix_of_head_ne {c d : Char} {p q : Str} (hcd : c ≠ d) :
    ¬ (c :: p : Str) <+: d :: q := by
  intro h
  rcases h with ⟨t, ht⟩
  injection ht with h1 _
  exact hcd h1

/-- After a shared stem `l`, a continuation headed by `c` is no prefix of a
continuation headed by `d ≠ c`. -/
theorem not_prefix_append_of_head_ne {c d : Char} (l : Str) {p q : Str}
    (hcd : c ≠ d) : ¬ (l ++ (c :: p) : Str) <+: l ++ (d :: q) := by
  intro h
  rcases h with ⟨t, ht⟩
  rw [List.append_assoc] at ht
  have ht2 := List.append_cancel_left ht
  injection ht2 with h1 _
  exact hcd h1

/-- The bare pattern occurs only at the head of the pattern list. -/
theorem bare_pattern_not_mem_rest (org name : Str) :
    bare_pattern org name ∉ rewrite_patterns_rest org name := by
  intro hmem
  simp only [rewrite_patterns_rest, rewrite_patterns, List.tail_cons,
    List.mem_cons, List.not_mem_nil, or_false] at hmem
  rcases hmem with h | h | h | h | h | h | h | h | h | h | h | h | h | h
  · exact ne_append_right (bare_pattern org name) ".git".data (by decide) h
  · exact ne_append_right (bare_pattern org name) ".git/".data (by decide) h
  · exact ne_append_right (bare_pattern org name) "/".data (by decide) h
  · exact ne_append_right (bare_pattern org name) "@".data (by decide) h
  · exact cons_ne_cons (by decide) _ _ h
  · exact cons_ne_cons (by decide) _ _ h
  · exact cons_ne_cons (by decide) _ _ h
  · exact cons_ne_cons (by decide) _ _ h
  · exact cons_ne_cons (by decide) _ _ h
  · exact cons_ne_cons (by decide) _ _ h
  · exact cons_ne_cons (by decide) _ _ h
  · exact cons_ne_cons (by decide) _ _ h
  · exact cons_ne_cons (by decide) _ _ h
  · exact cons_ne_cons (by decide) _ _ h

/- ===== theorems: C1 ===== -/

/-- Claim C1: for a repository whose working tree is dirty (non-empty
`git status --porcelain` output), `create_snapshot` bundles from a state
whose HEAD is exactly one commit beyond the repository's original HEAD,
authored `Shadow <shadow@localhost>` with message
`Shadow snapshot: uncommitted changes`, created regardless of whether
anything is staged (the effect of `--allow-empty`); the result has
`has_uncommitted = true` and `commit_sha` equal to that new commit's hash.
For a clean tree no commit is created and `commit_sha` is the original
HEAD. -/
theorem create_snapshot_spec (r : RepoState) (staged : Bool) :
    (has_uncommitted_changes r = true →
      (create_snapshot r staged).has_uncommitted = true ∧
      ∃ c : Commit,
        c ∈ (create_snapshot r staged).bundleRepo.commits ∧
        (create_snapshot r staged).bundleRepo.head = c.sha ∧
        (create_snapshot r staged).commit_sha = c.sha ∧
        c.parents = [r.head] ∧
        c.author = "Shadow <shadow@localhost>" ∧
        c.message = "Shadow snapshot: uncommitted changes" ∧
        c.sha ∉ r.commits.map Commit.sha ∧
        (create_snapshot r staged).bundleRepo.commits.length
          = r.commits.length + 1) ∧
    (has_uncommitted_changes r = false →
      (create_snapshot r staged).has_uncommitted = false ∧
      (create_snapshot r staged).commit_sha = r.head ∧
      (create_snapshot r staged).bundleRepo = r) := by
  constructor
  · intro hdirty
    have hgc : gitCommit (gitClone r) shadowAuthor shadowMessage true staged =
        { gitClone r with
          commits := ⟨freshSha (gitClone r), [(gitClone r).head],
            shadowAuthor, shadowMessage⟩ :: (gitClone r).commits
          head := freshSha (gitClone r) } := by
      simp [gitCommit]
    have hres : create_snapshot r staged =
        ⟨true,
          get_head_sha (gitCommit (gitClone r) shadowAuthor shadowMessage true staged),
          gitCommit (gitClone r) shadowAuthor shadowMessage true staged⟩ := by
      simp [create_snapshot, hdirty, create_snapshot_with_changes]
    rw [hres, hgc]
    refine ⟨rfl,
      ⟨freshSha (gitClone r), [(gitClone r).head], shadowAuthor, shadowMessage⟩,
      List.mem_cons_self _ _, rfl, rfl, rfl, rfl, rfl, ?_, by simp [gitClone]⟩
    intro hmem
    have hmem2 : freshSha (gitClone r) ∈ (gitClone r).commits.map Commit.sha := hmem
    have hle : freshSha (gitClone r) ≤
        ((gitClone r).commits.map Commit.sha).foldr max 0 :=
      List.le_max_of_le hmem2 (le_refl _)
    simp only [freshSha] at hle
    omega
  · intro hclean
    simp [create_snapshot, hclean, get_head_sha]

/-- Witness for `create_snapshot_spec`: a concrete dirty repository (porcelain
output ` M f`) receives the snapshot commit, a concrete clean one does not. -/
theorem create_snapshot_spec_witness :
    ((create_snapshot ⟨[⟨1, [], "a", "m"⟩], 1, " M f".data⟩ false).has_uncommitted = true ∧
      ∃ c : Commit,
        c ∈ (create_snapshot ⟨[⟨1, [], "a", "m"⟩], 1, " M f".data⟩ false).bundleRepo.commits ∧
        (create_snapshot ⟨[⟨1, [], "a", "m"⟩], 1, " M f".data⟩ false).bundleRepo.head = c.sha ∧
        (create_snapshot ⟨[⟨1, [], "a", "m"⟩], 1, " M f".data⟩ false).commit_sha = c.sha ∧
        c.parents = [1] ∧
        c.author = "Shadow <shadow@localhost>" ∧
        c.message = "Shadow snapshot: uncommitted changes" ∧
        c.sha ∉ ([⟨1, [], "a", "m"⟩] : List Commit).map Commit.sha ∧
        (create_snapshot ⟨[⟨1, [], "a", "m"⟩], 1, " M f".data⟩ false).bundleRepo.commits.length
          = ([⟨1, [], "a", "m"⟩] : List Commit).length + 1) ∧
    (create_snapshot ⟨[⟨1, [], "a", "m"⟩], 1, ([] : Str)⟩ false).commit_sha = 1 := by
  refine ⟨?_, ?_⟩
  · exact (create_snapshot_spec ⟨[⟨1, [], "a", "m"⟩], 1, " M f".data⟩ false).1 (by decide)
  · exact ((create_snapshot_spec ⟨[⟨1, [], "a", "m"⟩], 1, ([] : Str)⟩ false).2 (by decide)).2.1

/- ===== theorems: C8 ===== -/

/-- Claim C8 counterexample: a failing `git bundle create` (exit 1,
`fatal:` text on stderr) does not make the snapshot layer fail with a
`SnapshotFailed` error — `_run_git` returns normally. -/
theorem run_git_bundle_failure_cex :
    create_simple_bundle []
        ⟨1, [], "fatal: refusing to create empty bundle".data⟩ =
      Except.ok () := by
  rfl

/-- Claim C8 amended: `_run_git` never raises — for every argument list and
every subprocess outcome it returns `(stdout, stderr)`, discarding the exit
status; so a failed `git bundle create` raises no `SnapshotFailed` and the
git stderr is lost.  `create_snapshot` can only fail afterwards with a
file-not-found error from `stat` when no bundle file exists. -/
theorem run_git_never_raises :
    ∀ (args : List String) (res : GitRes),
      run_git args res = Except.ok (res.stdout, res.stderr) ∧
      snapshot_stat none = Except.error PyErr.fileNotFound := by
  intro args res
  refine ⟨?_, rfl⟩
  simp only [run_git]
  split <;> rfl

/- ===== theorems: C2 ===== -/

/-- Claim C2: for every repo spec `(org, name)`, the installed `insteadOf`
pattern set contains exactly one whitelisted bare pattern
(`https://github.com/<org>/<name>`, no terminating marker), and every other
installed pattern for that spec ends with a boundary marker `.git`, `/`,
or `@`. -/
theorem rewrite_patterns_boundary (org name : Str) :
    (rewrite_patterns org name).count (bare_pattern org name) = 1 ∧
    ∀ p ∈ rewrite_patterns org name, p ≠ bare_pattern org name →
      (".git".data <:+ p ∨ "/".data <:+ p ∨ "@".data <:+ p) := by
  have hslash_gitslash : "/".data <:+ ".git/".data := ⟨".git".data, by decide⟩
  constructor
  · have hsplit : rewrite_patterns org name =
        bare_pattern org name :: rewrite_patterns_rest org name := rfl
    rw [hsplit, List.count_cons_self,
      List.count_eq_zero.mpr (bare_pattern_not_mem_rest org name)]
  · intro p hp hne
    simp only [rewrite_patterns, List.mem_cons, List.not_mem_nil, or_false] at hp
    rcases hp with rfl | rfl | rfl | rfl | rfl | rfl | rfl | rfl | rfl | rfl |
      rfl | rfl | rfl | rfl | rfl
    · exact absurd rfl hne
    · exact Or.inl (List.suffix_append _ _)
    · exact Or.inr (Or.inl (hslash_gitslash.trans (List.suffix_append _ _)))
    · exact Or.inr (Or.inl (List.suffix_append _ _))
    · exact Or.inr (Or.inr (List.suffix_append _ _))
    · exact Or.inl (List.suffix_append _ _)
    · exact Or.inr (Or.inl (List.suffix_append _ _))
    · exact Or.inr (Or.inr (List.suffix_append _ _))
    · exact Or.inl (List.suffix_append _ _)
    · exact Or.inr (Or.inl (List.suffix_append _ _))
    · exact Or.inr (Or.inr (List.suffix_append _ _))
    · exact Or.inl (List.suffix_append _ _)
    · exact Or.inr (Or.inr (List.suffix_append _ _))
    · exact Or.inl (List.suffix_append _ _)
    · exact Or.inr (Or.inr (List.suffix_append _ _))

/-- Witness for `rewrite_patterns_boundary` at the spec `acme/r1`: the bare
pattern is counted once and the `.git` pattern carries a boundary marker. -/
theorem rewrite_patterns_boundary_witness :
    (rewrite_patterns "acme".data "r1".data).count
        (bare_pattern "acme".data "r1".data) = 1 ∧
    (".git".data <:+
        "https://github.com/".data ++ "acme".data ++ "/".data ++ "r1".data ++ ".git".data ∨
      "/".data <:+
        "https://github.com/".data ++ "acme".data ++ "/".data ++ "r1".data ++ ".git".data ∨
      "@".data <:+
        "https://github.com/".data ++ "acme".data ++ "/".data ++ "r1".data ++ ".git".data) :=
  ⟨(rewrite_patterns_boundary "acme".data "r1".data).1,
    (rewrite_patterns_boundary "acme".data "r1".data).2 _ (by decide) (by decide)⟩

/- ===== theorems: C3 ===== -/

/-- Claim C3 counterexample: the installed bare pattern for `acme/r1` IS a
string prefix of the sibling repository URL `https://github.com/acme/r1x`
(the accepted-tradeoff collision the source comment documents), refuting
the claim that no installed pattern prefixes a distinct repository URL. -/
theorem rewrite_patterns_sibling_cex :
    bare_pattern "acme".data "r1".data ∈
        rewrite_patterns "acme".data "r1".data ∧
    "r1x".data ≠ "r1".data ∧
    bare_pattern "acme".data "r1".data <+:
      bare_pattern "acme".data "r1x".data :=
  ⟨by decide, by decide, ⟨['x'], by decide⟩⟩

/-- Claim C3 amended: every installed pattern other than the whitelisted
bare one fails to be a string prefix of any sibling URL
`https://github.com/<org>/<name ++ c :: s>` whose extension does not start
with a boundary character (`.`, `/`, `@`); only the bare pattern can
prefix-match siblings. -/
theorem rewrite_patterns_no_sibling (org name : Str) (c : Char) (s : Str)
    (hdot : c ≠ '.') (hslash : c ≠ '/') (hat : c ≠ '@') :
    ∀ p ∈ rewrite_patterns org name, p ≠ bare_pattern org name →
      ¬ p <+: bare_pattern org (name ++ (c :: s)) := by
  have hassoc : bare_pattern org (name ++ (c :: s)) =
      bare_pattern org name ++ (c :: s) := by
    simp [bare_pattern, List.append_assoc]
  intro p hp hne
  rw [hassoc]
  simp only [rewrite_patterns, List.mem_cons, List.not_mem_nil, or_false] at hp
  rcases hp with rfl | rfl | rfl | rfl | rfl | rfl | rfl | rfl | rfl | rfl |
    rfl | rfl | rfl | rfl | rfl
  · exact absurd rfl hne
  · exact not_prefix_append_of_head_ne (bare_pattern org name) (Ne.symm hdot)
  · exact not_prefix_append_of_head_ne (bare_pattern org name) (Ne.symm hdot)
  · exact not_prefix_append_of_head_ne (bare_pattern org name) (Ne.symm hslash)
  · exact not_prefix_append_of_head_ne (bare_pattern org name) (Ne.symm hat)
  · exact not_prefix_of_head_ne (by decide)
  · exact not_prefix_of_head_ne (by decide)
  · exact not_prefix_of_head_ne (by decide)
  · exact not_prefix_of_head_ne (by decide)
  · exact not_prefix_of_head_ne (by decide)
  · exact not_prefix_of_head_ne (by decide)
  · exact not_prefix_of_head_ne (by decide)
  · exact not_prefix_of_head_ne (by decide)
  · exact not_prefix_of_head_ne (by decide)
  · exact not_prefix_of_head_ne (by decide)

/-- Witness for `rewrite_patterns_no_sibling`: the `.git`-terminated pattern
for `acme/r1` is no prefix of `https://github.com/acme/r1x`. -/
theorem rewrite_patterns_no_sibling_witness :
    ¬ ("https://github.com/".data ++ "acme".data ++ "/".data ++ "r1".data ++ ".git".data <+:
        bare_pattern "acme".data ("r1".data ++ ('x' :: []))) :=
  rewrite_patterns_no_sibling "acme".data "r1".data 'x' []
    (by decide) (by decide) (by decide) _ (by decide) (by decide)

/- ===== theorems: C5 ===== -/

/-- Claim C5 counterexample: the container path `/home/shadow/f.txt` lies
outside the `/workspace` mount, yet neither `extract` nor `inject` raises an
invalid-path error for it — both map it into the shadow's home directory. -/
theorem extract_inject_home_path_cex :
    "/workspace".data.isPrefixOf "/home/shadow/f.txt".data = false ∧
    map_extract_path "/home/shadow/f.txt".data =
      Except.ok (MappedPath.home "f.txt".data) ∧
    map_inject_path "/home/shadow/f.txt".data =
      Except.ok (MappedPath.home "f.txt".data) := by
  refine ⟨by decide, ?_, ?_⟩ <;> rfl

/-- Claim C5 amended: `extract` and `inject` raise an invalid-path error
exactly for container paths starting with neither `/workspace` nor
`/home/shadow`; paths starting with `/workspace` are mapped into the
workspace directory and paths starting with `/home/shadow` into the home
directory, in both operations. -/
theorem extract_inject_path_mapping (p : Str) :
    ((∃ e, map_extract_path p = Except.error e) ↔
      ("/workspace".data.isPrefixOf p = false ∧
        "/home/shadow".data.isPrefixOf p = false)) ∧
    ((∃ e, map_inject_path p = Except.error e) ↔
      ("/workspace".data.isPrefixOf p = false ∧
        "/home/shadow".data.isPrefixOf p = false)) ∧
    ("/workspace".data.isPrefixOf p = true →
      map_extract_path p =
        Except.ok (MappedPath.workspace (p.drop "/workspace/".data.length)) ∧
      map_inject_path p =
        Except.ok (MappedPath.workspace (p.drop "/workspace/".data.length))) ∧
    ("/workspace".data.isPrefixOf p = false →
      "/home/shadow".data.isPrefixOf p = true →
      map_extract_path p =
        Except.ok (MappedPath.home (p.drop "/home/shadow/".data.length)) ∧
      map_inject_path p =
        Except.ok (MappedPath.home (p.drop "/home/shadow/".data.length))) := by
  rcases hw : "/workspace".data.isPrefixOf p with _ | _ <;>
    rcases hh : "/home/shadow".data.isPrefixOf p with _ | _ <;>
      simp [map_extract_path, map_inject_path, hw, hh]

/-- Witness for `extract_inject_path_mapping`: a workspace path maps into the
workspace directory, and `/etc/passwd` is rejected by `extract`. -/
theorem extract_inject_path_mapping_witness :
    (map_extract_path "/workspace/a.txt".data =
        Except.ok (MappedPath.workspace
          ("/workspace/a.txt".data.drop "/workspace/".data.length)) ∧
      map_inject_path "/workspace/a.txt".data =
        Except.ok (MappedPath.workspace
          ("/workspace/a.txt".data.drop "/workspace/".data.length))) ∧
    (∃ e, map_extract_path "/etc/passwd".data = Except.error e) :=
  ⟨(extract_inject_path_mapping "/workspace/a.txt".data).2.2.1 (by decide),
    ((extract_inject_path_mapping "/etc/passwd".data).1).mpr
      ⟨by decide, by decide⟩⟩

/- ===== theorems: C6 ===== -/

/-- Claim C6 at a failing input: `push_bundle` clones the bundle and runs
`git push -u origin --all --force`, which transfers only the clone's local
heads (the bundle's HEAD branch).  For `tagged_bundle` the tag `v1`, the
second branch `dev` and the remote-tracking ref `origin/main` are all
contained in the bundle, yet none of them reaches the forge — contradicting
the claim that all branches, tags and remote-tracking refs are pushed. -/
theorem push_bundle_drops_refs :
    ("v1", 3) ∈ bundle_refs tagged_bundle ∧
    ("dev", 2) ∈ bundle_refs tagged_bundle ∧
    ("origin/main", 4) ∈ bundle_refs tagged_bundle ∧
    push_bundle tagged_bundle = ⟨[("main", 1)], []⟩ ∧
    ("dev", 2) ∉ (push_bundle tagged_bundle).heads ∧
    (push_bundle tagged_bundle).tags = [] := by
  refine ⟨by decide, by decide, by decide, by decide, by decide, by decide⟩

/- ===== theorems: C7 ===== -/

/-- The fail-fast loop of `_exec_batch`, characterized by the index of the
first failing command (at every enumeration offset `idx`). -/
theorem exec_batch_loop_fail_fast (ex : String → ExecResultM)
    (cmds : List String) :
    ∀ idx : Nat,
      (∀ k, first_fail_idx ex cmds = some k →
        exec_batch_loop ex true cmds idx =
          ((cmds.take (k + 1)).map (fun c => mkStep c (ex c)), false,
            some (idx + k))) ∧
      (first_fail_idx ex cmds = none →
        exec_batch_loop ex true cmds idx =
          (cmds.map (fun c => mkStep c (ex c)), true, none)) := by
  induction cmds with
  | nil =>
    intro idx
    refine ⟨?_, fun _ => rfl⟩
    intro k hk
    simp [first_fail_idx] at hk
  | cons c rest ih =>
    intro idx
    by_cases hc : (ex c).exit_code = 0
    · constructor
      · intro k hk
        simp only [first_fail_idx, hc, ne_eq, not_true_eq_false,
          if_false] at hk
        rcases Option.map_eq_some'.mp hk with ⟨k', hk', hkk⟩
        have h1 := (ih (idx + 1)).1 k' hk'
        simp only [exec_batch_loop, hc, ne_eq, not_true_eq_false, if_false,
          h1]
        subst hkk
        simp [List.take_succ_cons]
        omega
      · intro hnone
        simp only [first_fail_idx, hc, ne_eq, not_true_eq_false,
          if_false] at hnone
        have h2 := (ih (idx + 1)).2 (Option.map_eq_none'.mp hnone)
        simp [exec_batch_loop, hc, h2]
    · constructor
      · intro k hk
        simp only [first_fail_idx, ne_eq, hc, not_false_eq_true,
          if_true] at hk
        cases hk
        simp [exec_batch_loop, hc]
      · intro hnone
        simp [first_fail_idx, hc] at hnone

/-- Claim C7: `exec_batch` with `fail_fast = true` returns exactly the
prefix of per-command results up to and including the first command with a
non-zero exit code (so no later command is executed), with `failed_at` equal
to that command's index and `success = false`; when every command exits
zero, all commands run, `success = true` and `failed_at` is `none`. -/
theorem exec_batch_fail_fast_spec (ex : String → ExecResultM)
    (commands : List String) :
    (∀ k, first_fail_idx ex commands = some k →
      exec_batch ex commands true =
        ⟨(commands.take (k + 1)).map (fun c => mkStep c (ex c)), false,
          some k⟩) ∧
    (first_fail_idx ex commands = none →
      exec_batch ex commands true =
        ⟨commands.map (fun c => mkStep c (ex c)), true, none⟩) := by
  constructor
  · intro k hk
    have h := (exec_batch_loop_fail_fast ex commands 0).1 k hk
    simp [exec_batch, h]
  · intro h
    have h2 := (exec_batch_loop_fail_fast ex commands 0).2 h
    simp [exec_batch, h2]

/-- Witness for `exec_batch_fail_fast_spec`: the spec's own scenario
`["echo a", "false", "echo b"]` stops after two steps with
`failed_at = 1`. -/
theorem exec_batch_fail_fast_spec_witness :
    first_fail_idx exec_probe ["echo a", "false", "echo b"] = some 1 ∧
    exec_batch exec_probe ["echo a", "false", "echo b"] true =
      ⟨(["echo a", "false", "echo b"].take 2).map
          (fun c => mkStep c (exec_probe c)), false, some 1⟩ :=
  ⟨by decide,
    (exec_batch_fail_fast_spec exec_probe ["echo a", "false", "echo b"]).1 1
      (by decide)⟩

/- ===== theorems: C9 ===== -/

/-- Claim C9: the serialized metadata depends only on the NAMES of the
passed environment variables, never their values — two `_write_metadata`
calls identical except for env-var values produce identical metadata
content — and the `env_vars_passed` field lists exactly the names. -/
theorem write_metadata_names_only (shadow_id : String)
    (repos : List RepoSpecMeta) (image : Option String) (created_at : String)
    (env1 env2 : List (String × String))
    (hnames : env1.map Prod.fst = env2.map Prod.fst) :
    write_metadata shadow_id repos image (some env1) created_at =
      write_metadata shadow_id repos image (some env2) created_at ∧
    (env1 ≠ [] →
      (metadata_fields
          (write_metadata shadow_id repos image (some env1) created_at)).lookup
        "env_vars_passed" =
        some (JVal.arr ((env1.map Prod.fst).map JVal.str))) := by
  have hvals : env1.map (fun kv => JVal.str kv.1) =
      env2.map (fun kv => JVal.str kv.1) := by
    rw [show (fun kv : String × String => JVal.str kv.1) =
          JVal.str ∘ Prod.fst from rfl,
      ← List.map_map, hnames, List.map_map]
  constructor
  · by_cases h1 : env1 = []
    · have h2 : env2 = [] := by
        have := hnames
        rw [h1] at this
        exact List.map_eq_nil_iff.mp this.symm
      rw [h1, h2]
    · have h2 : env2 ≠ [] := by
        intro h2
        rw [h2] at hnames
        exact h1 (List.map_eq_nil_iff.mp hnames)
      simp [write_metadata, h1, h2, hvals]
  · intro h1
    have harr : env1.map (fun kv => JVal.str kv.1) =
        (env1.map Prod.fst).map JVal.str := by
      rw [List.map_map]
      rfl
    rcases image with _ | i
    · simp [write_metadata, metadata_fields, h1, List.lookup, harr]
    · by_cases hi : i = "" <;>
        simp [write_metadata, metadata_fields, h1, hi, List.lookup, harr]

/-- Witness for `write_metadata_names_only`: two metadata writes differing
only in an API-key value coincide, and only the name is listed. -/
theorem write_metadata_names_only_witness :
    write_metadata "s1" [] none
        (some [("ANTHROPIC_API_KEY", "secret-a")]) "t" =
      write_metadata "s1" [] none
        (some [("ANTHROPIC_API_KEY", "secret-b")]) "t" ∧
    (metadata_fields (write_metadata "s1" [] none
        (some [("ANTHROPIC_API_KEY", "secret-a")]) "t")).lookup
      "env_vars_passed" =
      some (JVal.arr (([("ANTHROPIC_API_KEY", "secret-a")].map
        Prod.fst).map JVal.str)) :=
  ⟨(write_metadata_names_only "s1" [] none "t"
      [("ANTHROPIC_API_KEY", "secret-a")] [("ANTHROPIC_API_KEY", "secret-b")]
      rfl).1,
    (write_metadata_names_only "s1" [] none "t"
      [("ANTHROPIC_API_KEY", "secret-a")] [("ANTHROPIC_API_KEY", "secret-b")]
      rfl).2 (by decide)⟩

/- ===== theorems: C4 ===== -/

/-- Claim C4 at its failing input: `sync-source` never succeeds —
`ShadowManager` defines no `sync_source` method, so for any valid
`shadow_id` and non-empty `local_sources` the tool operation returns a
failure result carrying the `AttributeError`, contradicting the claim that
`sync_source` succeeds unconditionally. -/
theorem tool_sync_source_fails :
    shadow_manager_methods.contains "sync_source" = false ∧
    tool_sync_source (some "s1") (some ["/tmp/r:acme/r1"]) =
      ⟨false,
        some "AttributeError: ShadowManager object has no attribute sync_source"⟩ ∧
    (tool_sync_source (some "s1") (some ["/tmp/r:acme/r1"])).success = false := by
  refine ⟨by decide, by decide, by decide⟩

/- ===== theorems: C10 ===== -/

/-- Claim C10: every code path deriving a container name from a shadow id
(`create`, `destroy`, the load-from-disk default) computes
`"shadow-" + shadow_id`; hence an auto-generated id `shadow-<hex8>` yields
the container name `shadow-shadow-<hex8>`, while a user-supplied non-empty
name `n` yields `shadow-<n>`. -/
theorem container_name_consistency :
    (∀ (name : Option String) (hex8 : String),
      (create_ids name hex8).2 = "shadow-" ++ (create_ids name hex8).1) ∧
    (∀ sid : String, destroy_container_name sid = "shadow-" ++ sid) ∧
    (∀ sid : String, load_container_name none sid = "shadow-" ++ sid) ∧
    (∀ hex8 : String,
      create_ids none hex8 = ("shadow-" ++ hex8, "shadow-shadow-" ++ hex8)) ∧
    (∀ (n hex8 : String), n ≠ "" →
      create_ids (some n) hex8 = (n, "shadow-" ++ n)) := by
  refine ⟨?_, fun sid => rfl, fun sid => rfl, ?_, ?_⟩
  · intro name hex8
    rcases name with _ | n
    · rfl
    · by_cases hn : n = "" <;> simp [create_ids, hn]
  · intro hex8
    have h0 : ("shadow-" ++ "shadow-" : String) = "shadow-shadow-" := rfl
    have h : "shadow-" ++ ("shadow-" ++ hex8) = "shadow-shadow-" ++ hex8 := by
      rw [← String.append_assoc, h0]
    show (("shadow-" ++ hex8 : String), ("shadow-" ++ ("shadow-" ++ hex8) : String)) =
      ("shadow-" ++ hex8, "shadow-shadow-" ++ hex8)
    rw [h]
  · intro n hex8 hn
    simp [create_ids, hn]

/-- Witness for `container_name_consistency`: a user-supplied name and an
auto-generated id at concrete inputs. -/
theorem container_name_consistency_witness :
    create_ids (some "demo") "abcd1234" = ("demo", "shadow-demo") ∧
    create_ids none "abcd1234" =
      ("shadow-abcd1234", "shadow-shadow-abcd1234") :=
  ⟨container_name_consistency.2.2.2.2 "demo" "abcd1234" (by decide),
    container_name_consistency.2.2.2.1 "abcd1234"⟩
